import Mathlib

/-!
Verification of the wind-load analysis program (`wind_analysis.py`).

The repository has one source file with two computational parts:

* `calculate_wind_load` (lines 161-180): a pure numeric transform from scalar
  parameters to per-height-level arrays (the Wind Profile Engine).  We embed
  it over the real numbers: numpy arrays become `List ℝ`, `np.log` becomes
  `Real.log`, the float power `**` becomes `Real.rpow`, and the `vm[-1]`
  indexing (which raises `IndexError` on an empty array, so the function
  returns nothing) becomes an `Option` result that is `none` exactly when the
  height vector is empty.

* `read_parameter_file` (lines 183-195): parsing of an uploaded text payload
  into four numbers.  We embed it computably over `ℚ`: Python's `str.strip`,
  `str.replace`, `str.split` and the list comprehension of line 187 are
  modelled character by character, and `float()` is modelled as a parser for
  sign / digits / decimal point / exponent decimal literals.
-/

namespace WindAnalysis

/-- Python `int(x)` truncation toward zero, on a real argument. -/
noncomputable def pyInt (x : ℝ) : ℤ :=
  if 0 ≤ x then ⌊x⌋ else -⌊-x⌋

/-- Height levels: `np.arange(1, int(H) + 1)` (line 163).  The array has
`max 0 (int H)` entries `1, 2, …, int H`, embedded as real numbers. -/
noncomputable def zLevels (H : ℝ) : List ℝ :=
  (List.range (pyInt H).toNat).map (fun i : ℕ => (i : ℝ) + 1)

/-- Baseline reference velocity `v_b0 = 100 / 3.6` (line 165). -/
noncomputable def v_b0 : ℝ := 100 / 3.6

/-- Base velocity `vb = c_dir * c_season * v_b0` (line 166). -/
noncomputable def vb (c_dir c_season : ℝ) : ℝ := c_dir * c_season * v_b0

/-- Roughness factor `kr = 0.19 * (z0 / 0.05) ** 0.07` (line 168). -/
noncomputable def kr (z0 : ℝ) : ℝ := 0.19 * (z0 / 0.05) ^ (0.07 : ℝ)

/-- Profile correction `cr = kr * np.log(z / z0)` (line 169), elementwise. -/
noncomputable def cr (z0 z : ℝ) : ℝ := kr z0 * Real.log (z / z0)

/-- Mean wind velocity `vm = cr * c0 * vb` (line 170), elementwise. -/
noncomputable def vm (z0 c_dir c_season c0 z : ℝ) : ℝ :=
  cr z0 z * c0 * vb c_dir c_season

/-- Turbulence factor `kl = 1` (line 173). -/
noncomputable def kl : ℝ := 1

/-- Turbulence intensity `Iv = kl / (c0 * np.log(z / z0))` (line 174). -/
noncomputable def Iv (z0 c0 z : ℝ) : ℝ :=
  kl / (c0 * Real.log (z / z0))

/-- Peak velocity pressure `q_p = 0.5 * rho_air * vm**2 * (1 + 7*Iv)`
(line 176), elementwise. -/
noncomputable def q_p (rho_air z0 c_dir c_season c0 z : ℝ) : ℝ :=
  0.5 * rho_air * (vm z0 c_dir c_season c0 z) ^ 2 * (1 + 7 * Iv z0 c0 z)

/-- Wind load `Fwy = q_p * cp * Ay / 1e3` (line 178), elementwise. -/
noncomputable def Fwy (rho_air z0 c_dir c_season c0 cp Ay z : ℝ) : ℝ :=
  q_p rho_air z0 c_dir c_season c0 z * cp * Ay / 1000

/-- Wind load `Fwx = q_p * cp * Ax / 1e3` (line 179), elementwise. -/
noncomputable def Fwx (rho_air z0 c_dir c_season c0 cp Ax z : ℝ) : ℝ :=
  q_p rho_air z0 c_dir c_season c0 z * cp * Ax / 1000

/-- The result dictionary of line 180. -/
structure WindResult where
  z : List ℝ
  vm : List ℝ
  vm_max : ℝ
  Fwy : List ℝ
  Fwx : List ℝ
  q_p : List ℝ
  Iv : List ℝ

/-- The Engine `calculate_wind_load` (lines 161-180).  All eleven parameters
of the Python signature are taken explicitly; the defaults of the signature
are the `default_*` constants below.  `omega` and `g` occur in the signature
and nowhere in the body, exactly as in the source.  The result is `none`
when the height vector is empty, because line 171 (`vm_max = vm[-1]`) raises
`IndexError` there and the function never returns. -/
noncomputable def calculate_wind_load (H omega g rho_air Ax Ay z0 c_dir c_season c0 cp : ℝ) :
    Option WindResult :=
  let z := zLevels H
  let vmArr := z.map (vm z0 c_dir c_season c0)
  match vmArr.getLast? with
  | none => none
  | some vmax =>
      some { z := z
             vm := vmArr
             vm_max := vmax
             Fwy := z.map (Fwy rho_air z0 c_dir c_season c0 cp Ay)
             Fwx := z.map (Fwx rho_air z0 c_dir c_season c0 cp Ax)
             q_p := z.map (q_p rho_air z0 c_dir c_season c0)
             Iv := z.map (Iv z0 c0) }

/-- Default `Ax = 303.3` of the Engine signature (line 161). -/
noncomputable def default_Ax : ℝ := 303.3

/-- Default `Ay = 592.5` of the Engine signature (line 161). -/
noncomputable def default_Ay : ℝ := 592.5

/-- Default `z0 = 0.01` of the Engine signature (line 161). -/
noncomputable def default_z0 : ℝ := 0.01

/-- Default `cp = 1.2` of the Engine signature (line 161). -/
noncomputable def default_cp : ℝ := 1.2

/-- Whitespace in the sense of Python `str.strip` (space, tab, newline,
carriage return, vertical tab, form feed). -/
def isPySpace (c : Char) : Bool :=
  c = ' ' || c = '\t' || c = '\n' || c = '\r' || c = '\x0b' || c = '\x0c'

/-- Python `str.strip()`: drop leading and trailing whitespace. -/
def pyStrip (s : List Char) : List Char :=
  ((s.dropWhile isPySpace).reverse.dropWhile isPySpace).reverse

/-- Python `str.split(',')`: split on every comma; an empty string yields
one empty field, and adjacent commas yield empty fields. -/
def splitComma : List Char → List (List Char)
  | [] => [[]]
  | c :: rest =>
      if c = ',' then [] :: splitComma rest
      else
        match splitComma rest with
        | [] => [[c]]
        | t :: ts => (c :: t) :: ts

/-- Line 187: `[p.strip() for p in raw.replace(';', ',').split(',') if p.strip() != '']`
applied to the stripped payload of line 186: normalize semicolons to commas,
split on commas, strip each field, and keep only the non-empty ones. -/
def tokens (raw : List Char) : List (List Char) :=
  ((splitComma ((pyStrip raw).map (fun c => if c = ';' then ',' else c))).map pyStrip).filter
    (fun p => decide (p ≠ []))

/-- Value of a digit string, most significant digit first. -/
def digitsVal (ds : List Char) : ℕ :=
  ds.foldl (fun n c => 10 * n + (c.toNat - 48)) 0

/-- Consume an optional leading sign, returning `true` for a negative sign. -/
def parseSign : List Char → Bool × List Char
  | '+' :: r => (false, r)
  | '-' :: r => (true, r)
  | r => (false, r)

/-- Exponent suffix of a float literal: optional sign then one or more
digits, consuming the whole remaining input. -/
def parseExpPart (mant : ℚ) (s : List Char) : Option ℚ :=
  match parseSign s with
  | (neg, r) =>
      let ed := r.takeWhile Char.isDigit
      let r2 := r.dropWhile Char.isDigit
      if ed = [] ∨ r2 ≠ [] then none
      else if neg then some (mant / (10 : ℚ) ^ digitsVal ed)
      else some (mant * (10 : ℚ) ^ digitsVal ed)

/-- Python `float()` on an already-stripped token, modelled for decimal
literals over `ℚ`: optional sign, digits with an optional decimal point
(at least one digit overall), and an optional `e`/`E` exponent.  The model
omits `inf`/`nan` keywords and digit-group underscores, which no part of
the specification or the claims exercises. -/
def parseFloat? (s : List Char) : Option ℚ :=
  match parseSign s with
  | (neg, r1) =>
      let ip := r1.takeWhile Char.isDigit
      let r2 := r1.dropWhile Char.isDigit
      let fp :=
        match r2 with
        | '.' :: r => r.takeWhile Char.isDigit
        | _ => []
      let r3 :=
        match r2 with
        | '.' :: r => r.dropWhile Char.isDigit
        | _ => r2
      if ip = [] ∧ fp = [] then none
      else
        let mag : ℚ := (digitsVal ip : ℚ) + (digitsVal fp : ℚ) / (10 : ℚ) ^ fp.length
        let mant : ℚ := if neg then -mag else mag
        match r3 with
        | [] => some mant
        | 'e' :: r => parseExpPart mant r
        | 'E' :: r => parseExpPart mant r
        | _ => none

/-- The file reader `read_parameter_file` (lines 183-195): exactly four
tokens must remain after splitting (line 188), and all four must parse as
floats (line 191, where a `float()` failure raises and is caught at
line 193); both failure modes return `None`.  The four values are
interpreted in the order `H, g, rho_air, omega_rpm`. -/
def read_parameter_file (raw : List Char) : Option (ℚ × ℚ × ℚ × ℚ) :=
  match tokens raw with
  | [a, b, c, d] =>
      match parseFloat? a, parseFloat? b, parseFloat? c, parseFloat? d with
      | some H, some g, some rho_air, some omega_rpm => some (H, g, rho_air, omega_rpm)
      | _, _, _, _ => none
  | _ => none

/-- Python `int()` truncation toward zero on a rational. -/
def pyIntQ (q : ℚ) : ℤ :=
  if 0 ≤ q then ⌊q⌋ else -⌊-q⌋

/-- The upload path of the Presentation Shell (lines 334-340): parse the
payload and, on success, call the Engine as
`calculate_wind_load(int(H), omega, g, rho_air)` with
`omega = omega_rpm * 2 * pi / 60` and the default constants.  A parse
failure means the Engine is never invoked. -/
noncomputable def uploadFlow (raw : List Char) : Option WindResult :=
  match read_parameter_file raw with
  | none => none
  | some (H, g, rho_air, omega_rpm) =>
      calculate_wind_load ((pyIntQ H : ℤ) : ℝ) ((omega_rpm : ℝ) * 2 * Real.pi / 60)
        (g : ℝ) (rho_air : ℝ) default_Ax default_Ay default_z0 1 1 1 default_cp

/-- Claim C1's formula for `vm(z)`:
`0.19*(z0/0.05)^0.07 * ln(z/z0) * c0 * (c_dir*c_season*100/3.6)`
(spec steps 1-4). -/
noncomputable def spec_vm (z0 c_dir c_season c0 z : ℝ) : ℝ :=
  0.19 * (z0 / 0.05) ^ (0.07 : ℝ) * Real.log (z / z0) * c0 * (c_dir * c_season * 100 / 3.6)

/-- Claim C1's formula for `Iv(z) = kl/(c0*ln(z/z0))` with `kl = 1` (spec step 6). -/
noncomputable def spec_Iv (z0 c0 z : ℝ) : ℝ :=
  1 / (c0 * Real.log (z / z0))

/-- Claim C1's formula for `q_p(z) = 0.5*rho_air*vm(z)^2*(1 + 7*Iv(z))` (spec step 7). -/
noncomputable def spec_qp (rho_air z0 c_dir c_season c0 z : ℝ) : ℝ :=
  0.5 * rho_air * (spec_vm z0 c_dir c_season c0 z) ^ 2 * (1 + 7 * spec_Iv z0 c0 z)

/-- Claim C1's formula for `Fwx(z) = q_p(z)*cp*Ax/1000` (spec step 8). -/
noncomputable def spec_Fwx (rho_air z0 c_dir c_season c0 cp Ax z : ℝ) : ℝ :=
  spec_qp rho_air z0 c_dir c_season c0 z * cp * Ax / 1000

/-- Claim C1's formula for `Fwy(z) = q_p(z)*cp*Ay/1000` (spec step 8). -/
noncomputable def spec_Fwy (rho_air z0 c_dir c_season c0 cp Ay z : ℝ) : ℝ :=
  spec_qp rho_air z0 c_dir c_season c0 z * cp * Ay / 1000

theorem vm_eq_spec (z0 c_dir c_season c0 z : ℝ) :
    vm z0 c_dir c_season c0 z = spec_vm z0 c_dir c_season c0 z := by
  unfold vm cr kr vb v_b0 spec_vm
  ring

theorem Iv_eq_spec (z0 c0 z : ℝ) : Iv z0 c0 z = spec_Iv z0 c0 z := by
  unfold Iv kl spec_Iv
  rfl

theorem q_p_eq_spec (rho_air z0 c_dir c_season c0 z : ℝ) :
    q_p rho_air z0 c_dir c_season c0 z = spec_qp rho_air z0 c_dir c_season c0 z := by
  unfold q_p spec_qp
  rw [vm_eq_spec, Iv_eq_spec]

theorem Fwx_eq_spec (rho_air z0 c_dir c_season c0 cp Ax z : ℝ) :
    Fwx rho_air z0 c_dir c_season c0 cp Ax z =
      spec_Fwx rho_air z0 c_dir c_season c0 cp Ax z := by
  unfold Fwx spec_Fwx
  rw [q_p_eq_spec]

theorem Fwy_eq_spec (rho_air z0 c_dir c_season c0 cp Ay z : ℝ) :
    Fwy rho_air z0 c_dir c_season c0 cp Ay z =
      spec_Fwy rho_air z0 c_dir c_season c0 cp Ay z := by
  unfold Fwy spec_Fwy
  rw [q_p_eq_spec]

theorem pyInt_of_nonneg (H : ℝ) (h : 0 ≤ H) : pyInt H = ⌊H⌋ := if_pos h

theorem zLevels_length (H : ℝ) : (zLevels H).length = (pyInt H).toNat := by
  unfold zLevels
  rw [List.length_map, List.length_range]

theorem zLevels_eq_nil_iff (H : ℝ) : zLevels H = [] ↔ H < 1 := by
  unfold zLevels
  rw [List.map_eq_nil_iff, List.range_eq_nil]
  unfold pyInt
  by_cases h : 0 ≤ H
  · rw [if_pos h]
    constructor
    · intro h0
      by_contra h1
      push_neg at h1
      have : (1 : ℤ) ≤ ⌊H⌋ := Int.le_floor.mpr (by exact_mod_cast h1)
      omega
    · intro h1
      have : ⌊H⌋ < 1 := Int.floor_lt.mpr (by exact_mod_cast h1)
      omega
  · rw [if_neg h]
    push_neg at h
    have h2 : 0 ≤ ⌊-H⌋ := Int.floor_nonneg.mpr (by linarith)
    constructor
    · intro
      linarith
    · intro
      omega

theorem zLevels_ne_nil (H : ℝ) (h : 1 ≤ H) : zLevels H ≠ [] := by
  rw [ne_eq, zLevels_eq_nil_iff]
  linarith

theorem zLevels_getElem (H : ℝ) (i : ℕ) (hi : i < (pyInt H).toNat) :
    (zLevels H)[i]? = some ((i : ℝ) + 1) := by
  unfold zLevels
  rw [List.getElem?_map]
  simp [List.getElem?_range, hi]

theorem one_le_of_mem_zLevels (H x : ℝ) (hx : x ∈ zLevels H) : 1 ≤ x := by
  unfold zLevels at hx
  rcases List.mem_map.mp hx with ⟨i, _, rfl⟩
  have : (0 : ℝ) ≤ (i : ℝ) := Nat.cast_nonneg i
  linarith

theorem map_zLevels_getElem (H : ℝ) (f : ℝ → ℝ) (i : ℕ) (x : ℝ)
    (hx : ((zLevels H).map f)[i]? = some x) :
    i < (pyInt H).toNat ∧ x = f ((i : ℝ) + 1) := by
  have hi : i < (pyInt H).toNat := by
    by_contra hcon
    push_neg at hcon
    have hlen : (zLevels H).length ≤ i := by
      rw [zLevels_length]
      exact hcon
    rw [List.getElem?_map, List.getElem?_eq_none hlen] at hx
    simp at hx
  refine ⟨hi, ?_⟩
  rw [List.getElem?_map, zLevels_getElem H i hi] at hx
  simpa using hx.symm

theorem calculate_wind_load_eq (H omega g rho_air Ax Ay z0 c_dir c_season c0 cp v : ℝ)
    (hv : ((zLevels H).map (vm z0 c_dir c_season c0)).getLast? = some v) :
    calculate_wind_load H omega g rho_air Ax Ay z0 c_dir c_season c0 cp =
      some { z := zLevels H
             vm := (zLevels H).map (vm z0 c_dir c_season c0)
             vm_max := v
             Fwy := (zLevels H).map (Fwy rho_air z0 c_dir c_season c0 cp Ay)
             Fwx := (zLevels H).map (Fwx rho_air z0 c_dir c_season c0 cp Ax)
             q_p := (zLevels H).map (q_p rho_air z0 c_dir c_season c0)
             Iv := (zLevels H).map (Iv z0 c0) } := by
  unfold calculate_wind_load
  simp only [hv]

theorem calculate_wind_load_eq_none (H omega g rho_air Ax Ay z0 c_dir c_season c0 cp : ℝ)
    (h : zLevels H = []) :
    calculate_wind_load H omega g rho_air Ax Ay z0 c_dir c_season c0 cp = none := by
  unfold calculate_wind_load
  rw [h]
  rfl

theorem calculate_wind_load_some (H omega g rho_air Ax Ay z0 c_dir c_season c0 cp : ℝ)
    (hH : 1 ≤ H) :
    ∃ r : WindResult,
      calculate_wind_load H omega g rho_air Ax Ay z0 c_dir c_season c0 cp = some r ∧
      r.z = zLevels H ∧
      r.vm = (zLevels H).map (vm z0 c_dir c_season c0) ∧
      r.Iv = (zLevels H).map (Iv z0 c0) ∧
      r.q_p = (zLevels H).map (q_p rho_air z0 c_dir c_season c0) ∧
      r.Fwx = (zLevels H).map (Fwx rho_air z0 c_dir c_season c0 cp Ax) ∧
      r.Fwy = (zLevels H).map (Fwy rho_air z0 c_dir c_season c0 cp Ay) ∧
      r.vm.getLast? = some r.vm_max := by
  have hmap : (zLevels H).map (vm z0 c_dir c_season c0) ≠ [] := by
    rw [ne_eq, List.map_eq_nil_iff]
    exact zLevels_ne_nil H hH
  rcases Option.isSome_iff_exists.mp (List.getLast?_isSome.mpr hmap) with ⟨v, hv⟩
  exact ⟨_, calculate_wind_load_eq H omega g rho_air Ax Ay z0 c_dir c_season c0 cp v hv,
    rfl, rfl, rfl, rfl, rfl, rfl, hv⟩

theorem calculate_wind_load_isSome_iff (H omega g rho_air Ax Ay z0 c_dir c_season c0 cp : ℝ) :
    (calculate_wind_load H omega g rho_air Ax Ay z0 c_dir c_season c0 cp).isSome ↔ 1 ≤ H := by
  constructor
  · intro hs
    by_contra h1
    push_neg at h1
    rw [calculate_wind_load_eq_none H omega g rho_air Ax Ay z0 c_dir c_season c0 cp
      ((zLevels_eq_nil_iff H).mpr h1)] at hs
    simp at hs
  · intro h1
    rcases calculate_wind_load_some H omega g rho_air Ax Ay z0 c_dir c_season c0 cp h1 with
      ⟨r, hr, _⟩
    rw [hr]
    rfl

/-- Claim C1: for every input with `H ≥ 1`, `z0 > 0`, `rho_air > 0` and arbitrary
further constants, the Engine computes elementwise over the height vector
`z = 1..⌊H⌋` exactly the spec's formulas:
`vm(z) = 0.19*(z0/0.05)^0.07 * ln(z/z0) * c0 * (c_dir*c_season*100/3.6)`,
`Iv(z) = kl/(c0*ln(z/z0))` with `kl = 1`,
`q_p(z) = 0.5*rho_air*vm(z)^2*(1+7*Iv(z))`,
`Fwx(z) = q_p(z)*cp*Ax/1000` and `Fwy(z) = q_p(z)*cp*Ay/1000`. -/
theorem C1_engine_computes_spec_formulas
    (H omega g rho_air Ax Ay z0 c_dir c_season c0 cp : ℝ)
    (hH : 1 ≤ H) (hz0 : 0 < z0) (hrho : 0 < rho_air) :
    ∃ r : WindResult,
      calculate_wind_load H omega g rho_air Ax Ay z0 c_dir c_season c0 cp = some r ∧
      ∀ i : ℕ, i < (⌊H⌋).toNat →
        r.z[i]? = some ((i : ℝ) + 1) ∧
        r.vm[i]? = some (spec_vm z0 c_dir c_season c0 ((i : ℝ) + 1)) ∧
        r.Iv[i]? = some (spec_Iv z0 c0 ((i : ℝ) + 1)) ∧
        r.q_p[i]? = some (spec_qp rho_air z0 c_dir c_season c0 ((i : ℝ) + 1)) ∧
        r.Fwx[i]? = some (spec_Fwx rho_air z0 c_dir c_season c0 cp Ax ((i : ℝ) + 1)) ∧
        r.Fwy[i]? = some (spec_Fwy rho_air z0 c_dir c_season c0 cp Ay ((i : ℝ) + 1)) := by
  rcases calculate_wind_load_some H omega g rho_air Ax Ay z0 c_dir c_season c0 cp hH with
    ⟨r, hr, hz, hvm, hIv, hqp, hFwx, hFwy, _⟩
  refine ⟨r, hr, fun i hi => ?_⟩
  have hi' : i < (pyInt H).toNat := by
    rw [pyInt_of_nonneg H (by linarith)]
    exact hi
  refine ⟨?_, ?_, ?_, ?_, ?_, ?_⟩
  · rw [hz]
    exact zLevels_getElem H i hi'
  · rw [hvm, List.getElem?_map, zLevels_getElem H i hi']
    simp [vm_eq_spec]
  · rw [hIv, List.getElem?_map, zLevels_getElem H i hi']
    simp [Iv_eq_spec]
  · rw [hqp, List.getElem?_map, zLevels_getElem H i hi']
    simp [q_p_eq_spec]
  · rw [hFwx, List.getElem?_map, zLevels_getElem H i hi']
    simp [Fwx_eq_spec]
  · rw [hFwy, List.getElem?_map, zLevels_getElem H i hi']
    simp [Fwy_eq_spec]

/-- Witness for C1 at the concrete input `H=2, omega=3, g=9, rho_air=1,
Ax=1, Ay=2, z0=1/2, c_dir=c_season=c0=1, cp=1`. -/
theorem C1_engine_computes_spec_formulas_witness :
    (1 : ℝ) ≤ 2 ∧ (0 : ℝ) < 1 / 2 ∧ (0 : ℝ) < 1 ∧
    (∃ r : WindResult,
      calculate_wind_load 2 3 9 1 1 2 (1 / 2) 1 1 1 1 = some r ∧
      ∀ i : ℕ, i < (⌊(2 : ℝ)⌋).toNat →
        r.z[i]? = some ((i : ℝ) + 1) ∧
        r.vm[i]? = some (spec_vm (1 / 2) 1 1 1 ((i : ℝ) + 1)) ∧
        r.Iv[i]? = some (spec_Iv (1 / 2) 1 ((i : ℝ) + 1)) ∧
        r.q_p[i]? = some (spec_qp 1 (1 / 2) 1 1 1 ((i : ℝ) + 1)) ∧
        r.Fwx[i]? = some (spec_Fwx 1 (1 / 2) 1 1 1 1 1 ((i : ℝ) + 1)) ∧
        r.Fwy[i]? = some (spec_Fwy 1 (1 / 2) 1 1 1 1 2 ((i : ℝ) + 1))) :=
  ⟨by norm_num, by norm_num, by norm_num,
    C1_engine_computes_spec_formulas 2 3 9 1 1 2 (1 / 2) 1 1 1 1
      (by norm_num) (by norm_num) (by norm_num)⟩

/-- Claim C2 counterexample: the invalid input `rho_air = -1 ≤ 0` (with `H = 1`
and the default constants of the signature) is not rejected: the Engine
returns a fully populated result bundle rather than failing with an explicit
error result. -/
theorem C2_counterexample_negative_density_accepted :
    ((-1 : ℝ) ≤ 0) ∧
      (calculate_wind_load 1 0 0 (-1) 303.3 592.5 0.01 1 1 1 1.2).isSome := by
  refine ⟨by norm_num, ?_⟩
  rw [calculate_wind_load_isSome_iff]

/-- Claim C2 (amended): the Engine performs no validation of `z0` or
`rho_air`; it produces a populated result bundle exactly when `⌊H⌋ ≥ 1`
(equivalently `H ≥ 1`, in which case the height vector is non-empty), and
fails — via the out-of-range indexing `vm[-1]` of line 171, modelled as
`none` — exactly when `H < 1`.  In particular `H = 0.5` is rejected before
any array is returned, but `z0 ≤ 0` or `rho_air ≤ 0` with `H ≥ 1` silently
yields a full bundle. -/
theorem C2_amended_only_empty_heights_fail
    (H omega g rho_air Ax Ay z0 c_dir c_season c0 cp : ℝ) :
    (calculate_wind_load H omega g rho_air Ax Ay z0 c_dir c_season c0 cp).isSome ↔ 1 ≤ H :=
  calculate_wind_load_isSome_iff H omega g rho_air Ax Ay z0 c_dir c_season c0 cp

/-- Claim C3: for valid `H ≥ 1` the returned height sequence has length
`⌊H⌋`, equals `1, 2, …, ⌊H⌋` (strictly increasing), and the five output
arrays all have the same length as the height sequence. -/
theorem C3_height_vector_and_lengths
    (H omega g rho_air Ax Ay z0 c_dir c_season c0 cp : ℝ) (hH : 1 ≤ H) :
    ∃ r : WindResult,
      calculate_wind_load H omega g rho_air Ax Ay z0 c_dir c_season c0 cp = some r ∧
      r.z.length = (⌊H⌋).toNat ∧
      r.z = (List.range (⌊H⌋).toNat).map (fun i : ℕ => (i : ℝ) + 1) ∧
      List.Pairwise (· < ·) r.z ∧
      r.vm.length = r.z.length ∧
      r.Iv.length = r.z.length ∧
      r.q_p.length = r.z.length ∧
      r.Fwx.length = r.z.length ∧
      r.Fwy.length = r.z.length := by
  rcases calculate_wind_load_some H omega g rho_air Ax Ay z0 c_dir c_season c0 cp hH with
    ⟨r, hr, hz, hvm, hIv, hqp, hFwx, hFwy, _⟩
  have hflr : pyInt H = ⌊H⌋ := pyInt_of_nonneg H (by linarith)
  refine ⟨r, hr, ?_, ?_, ?_, ?_, ?_, ?_, ?_, ?_⟩
  · rw [hz, zLevels_length, hflr]
  · rw [hz]
    unfold zLevels
    rw [hflr]
  · rw [hz]
    unfold zLevels
    exact (List.pairwise_lt_range _).map _ (fun a b hab => by
      have : (a : ℝ) < (b : ℝ) := by exact_mod_cast hab
      linarith)
  · rw [hvm, hz, List.length_map]
  · rw [hIv, hz, List.length_map]
  · rw [hqp, hz, List.length_map]
  · rw [hFwx, hz, List.length_map]
  · rw [hFwy, hz, List.length_map]

/-- Witness for C3 at `H=2` with arbitrary further arguments. -/
theorem C3_height_vector_and_lengths_witness :
    (1 : ℝ) ≤ 2 ∧
    (∃ r : WindResult,
      calculate_wind_load 2 0 0 1 1 1 1 1 1 1 1 = some r ∧
      r.z.length = (⌊(2 : ℝ)⌋).toNat ∧
      r.z = (List.range (⌊(2 : ℝ)⌋).toNat).map (fun i : ℕ => (i : ℝ) + 1) ∧
      List.Pairwise (· < ·) r.z ∧
      r.vm.length = r.z.length ∧
      r.Iv.length = r.z.length ∧
      r.q_p.length = r.z.length ∧
      r.Fwx.length = r.z.length ∧
      r.Fwy.length = r.z.length) :=
  ⟨by norm_num, C3_height_vector_and_lengths 2 0 0 1 1 1 1 1 1 1 1 (by norm_num)⟩

/-- Claim C4: for every valid input (`H ≥ 1`), the scalar `vm_max` equals the
last element of the `vm` array. -/
theorem C4_vm_max_is_last_vm
    (H omega g rho_air Ax Ay z0 c_dir c_season c0 cp : ℝ) (hH : 1 ≤ H) :
    ∃ r : WindResult,
      calculate_wind_load H omega g rho_air Ax Ay z0 c_dir c_season c0 cp = some r ∧
      r.vm.getLast? = some r.vm_max := by
  rcases calculate_wind_load_some H omega g rho_air Ax Ay z0 c_dir c_season c0 cp hH with
    ⟨r, hr, _, _, _, _, _, _, hlast⟩
  exact ⟨r, hr, hlast⟩

/-- Witness for C4 at `H=2`. -/
theorem C4_vm_max_is_last_vm_witness :
    (1 : ℝ) ≤ 2 ∧
    (∃ r : WindResult,
      calculate_wind_load 2 0 0 1 1 1 1 1 1 1 1 = some r ∧
      r.vm.getLast? = some r.vm_max) :=
  ⟨by norm_num, C4_vm_max_is_last_vm 2 0 0 1 1 1 1 1 1 1 1 (by norm_num)⟩

/-- Claim C9: the Engine's output does not depend on `omega` and `g`: two
invocations agreeing on all other arguments return identical result bundles
(two-run noninterference of the dead parameters). -/
theorem C9_omega_g_noninterference
    (H omega1 omega2 g1 g2 rho_air Ax Ay z0 c_dir c_season c0 cp : ℝ) :
    calculate_wind_load H omega1 g1 rho_air Ax Ay z0 c_dir c_season c0 cp =
      calculate_wind_load H omega2 g2 rho_air Ax Ay z0 c_dir c_season c0 cp := rfl

theorem v_b0_pos : (0 : ℝ) < v_b0 := by
  unfold v_b0
  norm_num

theorem kr_pos (z0 : ℝ) (hz0 : 0 < z0) : 0 < kr z0 := by
  unfold kr
  have h1 : (0 : ℝ) < (z0 / 0.05) ^ (0.07 : ℝ) :=
    Real.rpow_pos_of_pos (div_pos hz0 (by norm_num)) _
  nlinarith

theorem log_ratio_pos (z0 z : ℝ) (hz0 : 0 < z0) (hz1 : z0 < 1) (hz : 1 ≤ z) :
    0 < Real.log (z / z0) :=
  Real.log_pos ((one_lt_div hz0).mpr (lt_of_lt_of_le hz1 hz))

theorem log_ratio_mono (z0 a b : ℝ) (hz0 : 0 < z0) (ha : 0 < a) (hab : a < b) :
    Real.log (a / z0) < Real.log (b / z0) :=
  Real.log_lt_log (div_pos ha hz0) (div_lt_div_of_pos_right hab hz0)

theorem vm_pos (z0 z : ℝ) (hz0 : 0 < z0) (hz1 : z0 < 1) (hz : 1 ≤ z) :
    0 < vm z0 1 1 1 z := by
  unfold vm cr vb
  have hk := kr_pos z0 hz0
  have hL := log_ratio_pos z0 z hz0 hz1 hz
  have hv := v_b0_pos
  nlinarith [mul_pos (mul_pos hk hL) hv]

theorem Iv_pos (z0 z : ℝ) (hz0 : 0 < z0) (hz1 : z0 < 1) (hz : 1 ≤ z) :
    0 < Iv z0 1 z := by
  unfold Iv kl
  have hL := log_ratio_pos z0 z hz0 hz1 hz
  positivity

theorem q_p_pos (rho_air z0 z : ℝ) (hrho : 0 < rho_air) (hz0 : 0 < z0) (hz1 : z0 < 1)
    (hz : 1 ≤ z) : 0 < q_p rho_air z0 1 1 1 z := by
  unfold q_p
  have hv := vm_pos z0 z hz0 hz1 hz
  have hI := Iv_pos z0 z hz0 hz1 hz
  nlinarith [mul_pos (mul_pos hrho (pow_pos hv 2)) (by linarith : (0 : ℝ) < 1 + 7 * Iv z0 1 z)]

theorem Fwx_pos (rho_air z0 cp Ax z : ℝ) (hrho : 0 < rho_air) (hz0 : 0 < z0) (hz1 : z0 < 1)
    (hz : 1 ≤ z) (hcp : 0 < cp) (hAx : 0 < Ax) : 0 < Fwx rho_air z0 1 1 1 cp Ax z := by
  unfold Fwx
  have hq := q_p_pos rho_air z0 z hrho hz0 hz1 hz
  positivity

theorem Fwy_pos (rho_air z0 cp Ay z : ℝ) (hrho : 0 < rho_air) (hz0 : 0 < z0) (hz1 : z0 < 1)
    (hz : 1 ≤ z) (hcp : 0 < cp) (hAy : 0 < Ay) : 0 < Fwy rho_air z0 1 1 1 cp Ay z := by
  unfold Fwy
  have hq := q_p_pos rho_air z0 z hrho hz0 hz1 hz
  positivity

theorem vm_strictMono (z0 a b : ℝ) (hz0 : 0 < z0) (ha : 1 ≤ a) (hab : a < b) :
    vm z0 1 1 1 a < vm z0 1 1 1 b := by
  unfold vm cr vb
  have hk := kr_pos z0 hz0
  have hL := log_ratio_mono z0 a b hz0 (by linarith) hab
  have hv := v_b0_pos
  nlinarith [mul_lt_mul_of_pos_left hL (mul_pos hk hv)]

theorem q_p_closed_form (rho_air z0 z : ℝ) (hL : Real.log (z / z0) ≠ 0) :
    q_p rho_air z0 1 1 1 z =
      0.5 * rho_air * (kr z0 * v_b0) ^ 2 *
        ((Real.log (z / z0)) ^ 2 + 7 * Real.log (z / z0)) := by
  unfold q_p vm cr vb Iv kl
  field_simp
  ring

theorem q_p_strictMono (rho_air z0 a b : ℝ) (hrho : 0 < rho_air) (hz0 : 0 < z0)
    (hz1 : z0 < 1) (ha : 1 ≤ a) (hab : a < b) :
    q_p rho_air z0 1 1 1 a < q_p rho_air z0 1 1 1 b := by
  have hLa := log_ratio_pos z0 a hz0 hz1 ha
  have hLb := log_ratio_pos z0 b hz0 hz1 (by linarith)
  have hm := log_ratio_mono z0 a b hz0 (by linarith) hab
  rw [q_p_closed_form rho_air z0 a (ne_of_gt hLa), q_p_closed_form rho_air z0 b (ne_of_gt hLb)]
  have hK : 0 < 0.5 * rho_air * (kr z0 * v_b0) ^ 2 := by
    have hk := kr_pos z0 hz0
    have hv := v_b0_pos
    positivity
  have hsum : (Real.log (a / z0)) ^ 2 + 7 * Real.log (a / z0) <
      (Real.log (b / z0)) ^ 2 + 7 * Real.log (b / z0) := by
    nlinarith
  exact mul_lt_mul_of_pos_left hsum hK

theorem Fwx_strictMono (rho_air z0 cp Ax a b : ℝ) (hrho : 0 < rho_air) (hz0 : 0 < z0)
    (hz1 : z0 < 1) (ha : 1 ≤ a) (hab : a < b) (hcp : 0 < cp) (hAx : 0 < Ax) :
    Fwx rho_air z0 1 1 1 cp Ax a < Fwx rho_air z0 1 1 1 cp Ax b := by
  unfold Fwx
  have hq := q_p_strictMono rho_air z0 a b hrho hz0 hz1 ha hab
  gcongr

theorem Fwy_strictMono (rho_air z0 cp Ay a b : ℝ) (hrho : 0 < rho_air) (hz0 : 0 < z0)
    (hz1 : z0 < 1) (ha : 1 ≤ a) (hab : a < b) (hcp : 0 < cp) (hAy : 0 < Ay) :
    Fwy rho_air z0 1 1 1 cp Ay a < Fwy rho_air z0 1 1 1 cp Ay b := by
  unfold Fwy
  have hq := q_p_strictMono rho_air z0 a b hrho hz0 hz1 ha hab
  gcongr

/-- Claim C5: with the default constants (`z0 = 0.01 < 1`, `c_dir = c_season
= c0 = 1`, `cp = 1.2`, `Ax = 303.3`, `Ay = 592.5`) and `rho_air > 0`, the
arrays `vm`, `q_p`, `Fwx` and `Fwy` are strictly increasing along the height
index.  The `q_p` case combines the increasing `vm^2` with the decreasing
factor `1 + 7*Iv`: with `L = ln(z/z0) > 0`, `q_p` is a positive multiple of
`L^2 + 7L`, which is strictly increasing for positive `L`. -/
theorem C5_outputs_strictly_increasing (H omega g rho_air : ℝ)
    (hH : 1 ≤ H) (hrho : 0 < rho_air) :
    ∃ r : WindResult,
      calculate_wind_load H omega g rho_air default_Ax default_Ay default_z0 1 1 1 default_cp
        = some r ∧
      ∀ i j : ℕ, i < j →
        (∀ vi vj, r.vm[i]? = some vi → r.vm[j]? = some vj → vi < vj) ∧
        (∀ qi qj, r.q_p[i]? = some qi → r.q_p[j]? = some qj → qi < qj) ∧
        (∀ xi xj, r.Fwx[i]? = some xi → r.Fwx[j]? = some xj → xi < xj) ∧
        (∀ yi yj, r.Fwy[i]? = some yi → r.Fwy[j]? = some yj → yi < yj) := by
  rcases calculate_wind_load_some H omega g rho_air default_Ax default_Ay default_z0 1 1 1
    default_cp hH with ⟨r, hr, hz, hvm, hIv, hqp, hFwx, hFwy, _⟩
  have hz0 : (0 : ℝ) < default_z0 := by
    unfold default_z0
    norm_num
  have hz1 : default_z0 < 1 := by
    unfold default_z0
    norm_num
  have hcp : (0 : ℝ) < default_cp := by
    unfold default_cp
    norm_num
  have hAx : (0 : ℝ) < default_Ax := by
    unfold default_Ax
    norm_num
  have hAy : (0 : ℝ) < default_Ay := by
    unfold default_Ay
    norm_num
  refine ⟨r, hr, fun i j hij => ?_⟩
  have hi1 : (1 : ℝ) ≤ (i : ℝ) + 1 := by
    have : (0 : ℝ) ≤ (i : ℝ) := Nat.cast_nonneg i
    linarith
  have hij' : ((i : ℝ) + 1) < ((j : ℝ) + 1) := by
    have : (i : ℝ) < (j : ℝ) := by exact_mod_cast hij
    linarith
  refine ⟨?_, ?_, ?_, ?_⟩
  · intro vi vj hvi hvj
    rw [hvm] at hvi hvj
    obtain ⟨_, rfl⟩ := map_zLevels_getElem H _ i vi hvi
    obtain ⟨_, rfl⟩ := map_zLevels_getElem H _ j vj hvj
    exact vm_strictMono default_z0 _ _ hz0 hi1 hij'
  · intro qi qj hqi hqj
    rw [hqp] at hqi hqj
    obtain ⟨_, rfl⟩ := map_zLevels_getElem H _ i qi hqi
    obtain ⟨_, rfl⟩ := map_zLevels_getElem H _ j qj hqj
    exact q_p_strictMono rho_air default_z0 _ _ hrho hz0 hz1 hi1 hij'
  · intro xi xj hxi hxj
    rw [hFwx] at hxi hxj
    obtain ⟨_, rfl⟩ := map_zLevels_getElem H _ i xi hxi
    obtain ⟨_, rfl⟩ := map_zLevels_getElem H _ j xj hxj
    exact Fwx_strictMono rho_air default_z0 default_cp default_Ax _ _ hrho hz0 hz1 hi1 hij'
      hcp hAx
  · intro yi yj hyi hyj
    rw [hFwy] at hyi hyj
    obtain ⟨_, rfl⟩ := map_zLevels_getElem H _ i yi hyi
    obtain ⟨_, rfl⟩ := map_zLevels_getElem H _ j yj hyj
    exact Fwy_strictMono rho_air default_z0 default_cp default_Ay _ _ hrho hz0 hz1 hi1 hij'
      hcp hAy

/-- Witness for C5 at `H=2, rho_air=1`. -/
theorem C5_outputs_strictly_increasing_witness :
    (1 : ℝ) ≤ 2 ∧ (0 : ℝ) < 1 ∧
    (∃ r : WindResult,
      calculate_wind_load 2 0 0 1 default_Ax default_Ay default_z0 1 1 1 default_cp = some r ∧
      ∀ i j : ℕ, i < j →
        (∀ vi vj, r.vm[i]? = some vi → r.vm[j]? = some vj → vi < vj) ∧
        (∀ qi qj, r.q_p[i]? = some qi → r.q_p[j]? = some qj → qi < qj) ∧
        (∀ xi xj, r.Fwx[i]? = some xi → r.Fwx[j]? = some xj → xi < xj) ∧
        (∀ yi yj, r.Fwy[i]? = some yi → r.Fwy[j]? = some yj → yi < yj)) :=
  ⟨by norm_num, by norm_num,
    C5_outputs_strictly_increasing 2 0 0 1 (by norm_num) (by norm_num)⟩

/-- Claim C6: with the default constants and any valid input (`H ≥ 1`,
`rho_air > 0`, whence `q_p(z) > 0`), the directional loads at every height
level satisfy `Fwx(z) / Fwy(z) = Ax / Ay`. -/
theorem C6_Fwx_Fwy_proportional_to_areas (H omega g rho_air : ℝ)
    (hH : 1 ≤ H) (hrho : 0 < rho_air) :
    ∃ r : WindResult,
      calculate_wind_load H omega g rho_air default_Ax default_Ay default_z0 1 1 1 default_cp
        = some r ∧
      ∀ i : ℕ, ∀ x y : ℝ, r.Fwx[i]? = some x → r.Fwy[i]? = some y →
        x / y = default_Ax / default_Ay := by
  rcases calculate_wind_load_some H omega g rho_air default_Ax default_Ay default_z0 1 1 1
    default_cp hH with ⟨r, hr, hz, hvm, hIv, hqp, hFwx, hFwy, _⟩
  have hz0 : (0 : ℝ) < default_z0 := by
    unfold default_z0
    norm_num
  have hz1 : default_z0 < 1 := by
    unfold default_z0
    norm_num
  refine ⟨r, hr, fun i x y hx hy => ?_⟩
  rw [hFwx] at hx
  rw [hFwy] at hy
  obtain ⟨_, rfl⟩ := map_zLevels_getElem H _ i x hx
  obtain ⟨_, rfl⟩ := map_zLevels_getElem H _ i y hy
  have hi1 : (1 : ℝ) ≤ (i : ℝ) + 1 := by
    have : (0 : ℝ) ≤ (i : ℝ) := Nat.cast_nonneg i
    linarith
  have hq := q_p_pos rho_air default_z0 ((i : ℝ) + 1) hrho hz0 hz1 hi1
  unfold Fwx Fwy default_Ax default_Ay default_cp
  rw [div_eq_div_iff (by positivity) (by norm_num)]
  ring

/-- Witness for C6 at `H=2, rho_air=1`. -/
theorem C6_Fwx_Fwy_proportional_to_areas_witness :
    (1 : ℝ) ≤ 2 ∧ (0 : ℝ) < 1 ∧
    (∃ r : WindResult,
      calculate_wind_load 2 0 0 1 default_Ax default_Ay default_z0 1 1 1 default_cp = some r ∧
      ∀ i : ℕ, ∀ x y : ℝ, r.Fwx[i]? = some x → r.Fwy[i]? = some y →
        x / y = default_Ax / default_Ay) :=
  ⟨by norm_num, by norm_num,
    C6_Fwx_Fwy_proportional_to_areas 2 0 0 1 (by norm_num) (by norm_num)⟩

/-- Claim C7: for every valid input (`H ≥ 1`, `rho_air > 0`, `0 < z0 < 1` so
that the logarithm argument exceeds 1 already at the lowest height level,
with the remaining constants at their defaults), every element of `vm`,
`Iv`, `q_p`, `Fwx`, `Fwy` and the scalar `vm_max` is non-negative.  In this
real-valued model every output is a (finite) real number; the hypotheses
exclude the non-positive logarithm arguments that produce `NaN`/`inf` in
the floating-point original. -/
theorem C7_outputs_nonnegative (H omega g rho_air z0 : ℝ)
    (hH : 1 ≤ H) (hrho : 0 < rho_air) (hz0 : 0 < z0) (hz1 : z0 < 1) :
    ∃ r : WindResult,
      calculate_wind_load H omega g rho_air default_Ax default_Ay z0 1 1 1 default_cp
        = some r ∧
      (∀ x ∈ r.vm, 0 ≤ x) ∧ (∀ x ∈ r.Iv, 0 ≤ x) ∧ (∀ x ∈ r.q_p, 0 ≤ x) ∧
      (∀ x ∈ r.Fwx, 0 ≤ x) ∧ (∀ x ∈ r.Fwy, 0 ≤ x) ∧ 0 ≤ r.vm_max := by
  rcases calculate_wind_load_some H omega g rho_air default_Ax default_Ay z0 1 1 1
    default_cp hH with ⟨r, hr, hz, hvm, hIv, hqp, hFwx, hFwy, hlast⟩
  have hcp : (0 : ℝ) < default_cp := by
    unfold default_cp
    norm_num
  have hAx : (0 : ℝ) < default_Ax := by
    unfold default_Ax
    norm_num
  have hAy : (0 : ℝ) < default_Ay := by
    unfold default_Ay
    norm_num
  have hvmAll : ∀ x ∈ r.vm, 0 ≤ x := by
    rw [hvm]
    intro x hx
    rcases List.mem_map.mp hx with ⟨zv, hzv, rfl⟩
    exact le_of_lt (vm_pos z0 zv hz0 hz1 (one_le_of_mem_zLevels H zv hzv))
  refine ⟨r, hr, hvmAll, ?_, ?_, ?_, ?_, ?_⟩
  · rw [hIv]
    intro x hx
    rcases List.mem_map.mp hx with ⟨zv, hzv, rfl⟩
    exact le_of_lt (Iv_pos z0 zv hz0 hz1 (one_le_of_mem_zLevels H zv hzv))
  · rw [hqp]
    intro x hx
    rcases List.mem_map.mp hx with ⟨zv, hzv, rfl⟩
    exact le_of_lt (q_p_pos rho_air z0 zv hrho hz0 hz1 (one_le_of_mem_zLevels H zv hzv))
  · rw [hFwx]
    intro x hx
    rcases List.mem_map.mp hx with ⟨zv, hzv, rfl⟩
    exact le_of_lt
      (Fwx_pos rho_air z0 default_cp default_Ax zv hrho hz0 hz1
        (one_le_of_mem_zLevels H zv hzv) hcp hAx)
  · rw [hFwy]
    intro x hx
    rcases List.mem_map.mp hx with ⟨zv, hzv, rfl⟩
    exact le_of_lt
      (Fwy_pos rho_air z0 default_cp default_Ay zv hrho hz0 hz1
        (one_le_of_mem_zLevels H zv hzv) hcp hAy)
  · exact hvmAll r.vm_max (List.mem_of_mem_getLast? hlast)

/-- Witness for C7 at `H=2, rho_air=1, z0=1/2`. -/
theorem C7_outputs_nonnegative_witness :
    (1 : ℝ) ≤ 2 ∧ (0 : ℝ) < 1 ∧ (0 : ℝ) < 1 / 2 ∧ (1 / 2 : ℝ) < 1 ∧
    (∃ r : WindResult,
      calculate_wind_load 2 0 0 1 default_Ax default_Ay (1 / 2) 1 1 1 default_cp = some r ∧
      (∀ x ∈ r.vm, 0 ≤ x) ∧ (∀ x ∈ r.Iv, 0 ≤ x) ∧ (∀ x ∈ r.q_p, 0 ≤ x) ∧
      (∀ x ∈ r.Fwx, 0 ≤ x) ∧ (∀ x ∈ r.Fwy, 0 ≤ x) ∧ 0 ≤ r.vm_max) :=
  ⟨by norm_num, by norm_num, by norm_num, by norm_num,
    C7_outputs_nonnegative 2 0 0 1 (1 / 2) (by norm_num) (by norm_num) (by norm_num)
      (by norm_num)⟩

theorem read_parameter_file_none_of_length (raw : List Char)
    (h : (tokens raw).length ≠ 4) : read_parameter_file raw = none := by
  unfold read_parameter_file
  split
  · rename_i a b c d heq
    exfalso
    apply h
    rw [heq]
    rfl
  · rfl

theorem read_parameter_file_none_of_bad_token (raw t : List Char)
    (ht : t ∈ tokens raw) (hpf : parseFloat? t = none) :
    read_parameter_file raw = none := by
  unfold read_parameter_file
  split
  · rename_i a b c d heq
    rw [heq] at ht
    simp only [List.mem_cons, List.not_mem_nil, or_false] at ht
    split
    · rename_i hH hg hrho hom
      rcases ht with rfl | rfl | rfl | rfl <;> simp_all
    · rfl
  · rfl

theorem read_parameter_file_some_inv (raw : List Char) (p : ℚ × ℚ × ℚ × ℚ)
    (hp : read_parameter_file raw = some p) :
    ∃ ta tb tc td, tokens raw = [ta, tb, tc, td] ∧
      parseFloat? ta = some p.1 ∧ parseFloat? tb = some p.2.1 ∧
      parseFloat? tc = some p.2.2.1 ∧ parseFloat? td = some p.2.2.2 := by
  unfold read_parameter_file at hp
  split at hp
  · rename_i a b c d heq
    split at hp
    · rename_i hH hg hrho hom
      injection hp with hp
      subst hp
      exact ⟨a, b, c, d, heq, hH, hg, hrho, hom⟩
    · exact absurd hp (by simp)
  · exact absurd hp (by simp)

theorem uploadFlow_none_of_parse_failure (raw : List Char)
    (h : read_parameter_file raw = none) : uploadFlow raw = none := by
  unfold uploadFlow
  rw [h]

/-- Claim C8: parameter-file parsing yields exactly four numeric tokens,
interpreted in the fixed order `H, g, rho_air, omega_rpm`; any payload whose
token count differs from four or that contains a non-numeric token is a
parse failure, after which the Engine is never invoked (the upload flow
produces no result at all). -/
theorem C8_exactly_four_numeric_tokens (raw : List Char) :
    (∀ p : ℚ × ℚ × ℚ × ℚ, read_parameter_file raw = some p →
      ∃ ta tb tc td, tokens raw = [ta, tb, tc, td] ∧
        parseFloat? ta = some p.1 ∧ parseFloat? tb = some p.2.1 ∧
        parseFloat? tc = some p.2.2.1 ∧ parseFloat? td = some p.2.2.2) ∧
    (((tokens raw).length ≠ 4 ∨ ∃ t ∈ tokens raw, parseFloat? t = none) →
      read_parameter_file raw = none ∧ uploadFlow raw = none) := by
  constructor
  · exact fun p hp => read_parameter_file_some_inv raw p hp
  · intro h
    have hnone : read_parameter_file raw = none := by
      rcases h with hlen | ⟨t, ht, hpf⟩
      · exact read_parameter_file_none_of_length raw hlen
      · exact read_parameter_file_none_of_bad_token raw t ht hpf
    exact ⟨hnone, uploadFlow_none_of_parse_failure raw hnone⟩

/-- Witness for C8 at the payload `"66.7,abc,1.225,2.0"`, whose second token
is non-numeric. -/
theorem C8_exactly_four_numeric_tokens_witness :
    (∃ t ∈ tokens (("66.7,abc,1.225,2.0").toList), parseFloat? t = none) ∧
    read_parameter_file (("66.7,abc,1.225,2.0").toList) = none ∧
    uploadFlow (("66.7,abc,1.225,2.0").toList) = none :=
  ⟨by decide,
    (C8_exactly_four_numeric_tokens (("66.7,abc,1.225,2.0").toList)).2 (Or.inr (by decide))⟩

/-- Claim C10: the parser normalizes semicolons to commas, strips
whitespace, and discards empty fields before counting (this is how `tokens`
is computed from the payload), so the four-field rule counts the remaining
non-empty tokens: any payload whose token list consists of exactly four
parseable tokens — including payloads with leading, trailing, or repeated
separators such as `"66.7,,9.81;;1.225,2.0,"` — is accepted and parsed. -/
theorem C10_separator_tolerant_acceptance (raw ta tb tc td : List Char)
    (htok : tokens raw = [ta, tb, tc, td])
    (ha : (parseFloat? ta).isSome) (hb : (parseFloat? tb).isSome)
    (hc : (parseFloat? tc).isSome) (hd : (parseFloat? td).isSome) :
    ∃ qa qb qc qd : ℚ,
      parseFloat? ta = some qa ∧ parseFloat? tb = some qb ∧
      parseFloat? tc = some qc ∧ parseFloat? td = some qd ∧
      read_parameter_file raw = some (qa, qb, qc, qd) := by
  rcases Option.isSome_iff_exists.mp ha with ⟨qa, hqa⟩
  rcases Option.isSome_iff_exists.mp hb with ⟨qb, hqb⟩
  rcases Option.isSome_iff_exists.mp hc with ⟨qc, hqc⟩
  rcases Option.isSome_iff_exists.mp hd with ⟨qd, hqd⟩
  refine ⟨qa, qb, qc, qd, hqa, hqb, hqc, hqd, ?_⟩
  unfold read_parameter_file
  rw [htok]
  simp only [hqa, hqb, hqc, hqd]

/-- Witness for C10 at the payload `"66.7,,9.81;;1.225,2.0,"` with repeated
and trailing separators. -/
theorem C10_separator_tolerant_acceptance_witness :
    tokens (("66.7,,9.81;;1.225,2.0,").toList) =
      [("66.7").toList, ("9.81").toList, ("1.225").toList, ("2.0").toList] ∧
    (∃ qa qb qc qd : ℚ,
      parseFloat? (("66.7").toList) = some qa ∧ parseFloat? (("9.81").toList) = some qb ∧
      parseFloat? (("1.225").toList) = some qc ∧ parseFloat? (("2.0").toList) = some qd ∧
      read_parameter_file (("66.7,,9.81;;1.225,2.0,").toList) = some (qa, qb, qc, qd)) :=
  ⟨by decide,
    C10_separator_tolerant_acceptance (("66.7,,9.81;;1.225,2.0,").toList)
      (("66.7").toList) (("9.81").toList) (("1.225").toList) (("2.0").toList)
      (by decide) (by decide) (by decide) (by decide) (by decide)⟩

end WindAnalysis
